import Mathlib

/-!
Shallow embedding of `src/backend/app/models.py` (a SQLModel/pydantic schema
for a delivery-management backend) and proofs about its declared constraints.

Embedding conventions:
* Each pydantic/SQLModel class becomes a Lean structure with inheritance
  flattened; field names are kept.
* Declared field constraints (min_length / max_length / ge / le / enum
  membership) become total validating constructors `mk?` returning
  `Except ValidationError _`, checking fields in declaration order, as the
  schema contract states (a violation signals a `ValidationError` naming the
  offending field and rule).
* `uuid.UUID` is modelled as `String`, `datetime` as `Int` (epoch value
  supplied by the creating process), python `float` as `Rat` (the claims only
  compare against small integer bounds, where IEEE comparison is exact).
* `EmailStr` format checking is pydantic-library behaviour, outside this
  schema file; the constraint declared here is `max_length=255`, which is what
  the embedding enforces.
* `Relationship(...)` declarations are modelled as schema-level data
  (`SchemaRel`), since they carry no field value; the `cascade` directive is
  recorded as a Boolean.
-/

/-- UUID values, generated client-side by the creating process. -/
abbrev UUID := String

/-- `datetime` values, modelled as an integer timestamp. -/
abbrev DateTime := Int

/-- Constraint violations at construction time: the offending field and the
violated rule. -/
structure ValidationError where
  field : String
  rule : String
deriving DecidableEq, Repr

/-- Whether a validating constructor succeeded. -/
def vOk {α : Type} : Except ValidationError α → Bool
  | .ok _ => true
  | .error _ => false

/-! ## Enums (models.py lines 14-47) -/

/-- `class OrderStatus(str, Enum)`. -/
inductive OrderStatus where
  | pending | confirmed | in_transit | delivered | cancelled
deriving DecidableEq, Repr

/-- The string values declared for `OrderStatus`. -/
def orderStatusStrings : List String :=
  ["pending", "confirmed", "in_transit", "delivered", "cancelled"]

/-- Coercion of a raw string into `OrderStatus`, as pydantic does for
`str`-valued enums: only the declared values are accepted. -/
def OrderStatus.ofString (s : String) : Option OrderStatus :=
  if s = "pending" then some .pending
  else if s = "confirmed" then some .confirmed
  else if s = "in_transit" then some .in_transit
  else if s = "delivered" then some .delivered
  else if s = "cancelled" then some .cancelled
  else none

/-- `class DeliveryStatus(str, Enum)`. -/
inductive DeliveryStatus where
  | assigned | in_transit | delivered | cancelled
deriving DecidableEq, Repr

/-- The string values declared for `DeliveryStatus`. -/
def deliveryStatusStrings : List String :=
  ["assigned", "in_transit", "delivered", "cancelled"]

/-- Coercion of a raw string into `DeliveryStatus`. -/
def DeliveryStatus.ofString (s : String) : Option DeliveryStatus :=
  if s = "assigned" then some .assigned
  else if s = "in_transit" then some .in_transit
  else if s = "delivered" then some .delivered
  else if s = "cancelled" then some .cancelled
  else none

/-- `class PaymentStatus(str, Enum)`. -/
inductive PaymentStatus where
  | pending | successful | failed
deriving DecidableEq, Repr

/-- The string values declared for `PaymentStatus`. -/
def paymentStatusStrings : List String :=
  ["pending", "successful", "failed"]

/-- Coercion of a raw string into `PaymentStatus`. -/
def PaymentStatus.ofString (s : String) : Option PaymentStatus :=
  if s = "pending" then some .pending
  else if s = "successful" then some .successful
  else if s = "failed" then some .failed
  else none

/-- `class PaymentMethod(str, Enum)`. -/
inductive PaymentMethod where
  | credit_card | paypal | crypto | bank_transfer
deriving DecidableEq, Repr

/-- The string values declared for `PaymentMethod`. -/
def paymentMethodStrings : List String :=
  ["credit_card", "paypal", "crypto", "bank_transfer"]

/-- Coercion of a raw string into `PaymentMethod`. -/
def PaymentMethod.ofString (s : String) : Option PaymentMethod :=
  if s = "credit_card" then some .credit_card
  else if s = "paypal" then some .paypal
  else if s = "crypto" then some .crypto
  else if s = "bank_transfer" then some .bank_transfer
  else none

/-- `class VehicleType(str, Enum)`. -/
inductive VehicleType where
  | bike | car | truck | airplane | ship
deriving DecidableEq, Repr

/-- The string values declared for `VehicleType`. -/
def vehicleTypeStrings : List String :=
  ["bike", "car", "truck", "airplane", "ship"]

/-- Coercion of a raw string into `VehicleType`. -/
def VehicleType.ofString (s : String) : Option VehicleType :=
  if s = "bike" then some .bike
  else if s = "car" then some .car
  else if s = "truck" then some .truck
  else if s = "airplane" then some .airplane
  else if s = "ship" then some .ship
  else none

/-! ## User models (models.py lines 51-99) -/

/-- `class UserBase(SQLModel)` (lines 51-55): shared user properties, with the
declared defaults `is_active = True`, `is_superuser = False`,
`full_name = None`. -/
structure UserBase where
  email : String
  is_active : Bool := true
  is_superuser : Bool := false
  full_name : Option String := none
deriving DecidableEq, Repr

/-- `class UserCreate(UserBase)` (lines 59-60): adds a required `password`
with `min_length=8, max_length=40`. Inherited fields flattened in. -/
structure UserCreate where
  email : String
  is_active : Bool := true
  is_superuser : Bool := false
  full_name : Option String := none
  password : String
deriving DecidableEq, Repr

/-- Validating constructor for `UserCreate`, enforcing the declared field
constraints in declaration order: `email` `max_length=255`, `full_name`
`max_length=255` when present, `password` `min_length=8, max_length=40`. -/
def UserCreate.mk? (email : String) (is_active is_superuser : Bool)
    (full_name : Option String) (password : String) :
    Except ValidationError UserCreate :=
  if 255 < email.length then .error ⟨"email", "max_length"⟩
  else match full_name with
  | some fn =>
    if 255 < fn.length then .error ⟨"full_name", "max_length"⟩
    else if password.length < 8 then .error ⟨"password", "min_length"⟩
    else if 40 < password.length then .error ⟨"password", "max_length"⟩
    else .ok ⟨email, is_active, is_superuser, full_name, password⟩
  | none =>
    if password.length < 8 then .error ⟨"password", "min_length"⟩
    else if 40 < password.length then .error ⟨"password", "max_length"⟩
    else .ok ⟨email, is_active, is_superuser, none, password⟩

/-- `class User(UserBase, table=True)` (lines 86-89): the persisted user,
adding `id` and `hashed_password`.  The `items` navigation property is
schema-level (see `schemaRelationships`). -/
structure User where
  email : String
  is_active : Bool := true
  is_superuser : Bool := false
  full_name : Option String := none
  id : UUID
  hashed_password : String
deriving DecidableEq, Repr

/-- `class UserPublic(UserBase)` (lines 93-94): the externally safe
projection — `UserBase` fields plus `id`, no `hashed_password`. -/
structure UserPublic where
  email : String
  is_active : Bool
  is_superuser : Bool
  full_name : Option String
  id : UUID
deriving DecidableEq, Repr

/-- Field names of the `UserPublic` shape, in declaration order. -/
def UserPublic.fieldNames : List String :=
  ["email", "is_active", "is_superuser", "full_name", "id"]

/-- The projection of a persisted `User` onto its `UserPublic` shape: the
`UserBase` fields plus `id`, by explicit field mapping. -/
def User.toPublic (u : User) : UserPublic :=
  ⟨u.email, u.is_active, u.is_superuser, u.full_name, u.id⟩

/-! ## Item models (models.py lines 103-134) -/

/-- `class ItemBase(SQLModel)` (lines 103-105): `title` with
`min_length=1, max_length=255`, optional `description` with
`max_length=255`. -/
structure ItemBase where
  title : String
  description : Option String := none
deriving DecidableEq, Repr

/-- Validating constructor for `ItemBase` (and hence `ItemCreate`, which
inherits it unchanged): `title` `min_length=1, max_length=255`,
`description` `max_length=255` when present. -/
def ItemBase.mk? (title : String) (description : Option String) :
    Except ValidationError ItemBase :=
  if title.length < 1 then .error ⟨"title", "min_length"⟩
  else if 255 < title.length then .error ⟨"title", "max_length"⟩
  else match description with
  | some d =>
    if 255 < d.length then .error ⟨"description", "max_length"⟩
    else .ok ⟨title, description⟩
  | none => .ok ⟨title, none⟩

/-- `class ItemCreate(ItemBase): pass` (lines 109-110): identical shape and
constraints to `ItemBase`. -/
abbrev ItemCreate := ItemBase

/-- Validating constructor for `ItemCreate`: inherited from `ItemBase`
unchanged. -/
def ItemCreate.mk? (title : String) (description : Option String) :
    Except ValidationError ItemCreate :=
  ItemBase.mk? title description

/-- `class ItemUpdate(ItemBase)` (lines 114-115): `title` overridden to be
optional with `default=None, min_length=1, max_length=255`; `description`
inherited optional. -/
structure ItemUpdate where
  title : Option String := none
  description : Option String := none
deriving DecidableEq, Repr

/-- Validating constructor for `ItemUpdate`: both fields optional; when
present, `title` must satisfy `min_length=1, max_length=255` and
`description` `max_length=255`. -/
def ItemUpdate.mk? (title : Option String) (description : Option String) :
    Except ValidationError ItemUpdate :=
  match title with
  | some t =>
    if t.length < 1 then .error ⟨"title", "min_length"⟩
    else if 255 < t.length then .error ⟨"title", "max_length"⟩
    else match description with
    | some d =>
      if 255 < d.length then .error ⟨"description", "max_length"⟩
      else .ok ⟨title, description⟩
    | none => .ok ⟨title, none⟩
  | none =>
    match description with
    | some d =>
      if 255 < d.length then .error ⟨"description", "max_length"⟩
      else .ok ⟨none, description⟩
    | none => .ok ⟨none, none⟩

/-- `class Item(ItemBase, table=True)` (lines 119-124): the persisted item.
Note that line 121 redeclares `title: str = Field(max_length=255)`,
replacing the inherited field — the persisted model's declared `title`
constraint is `max_length=255` only, with no `min_length`. -/
structure Item where
  title : String
  description : Option String := none
  id : UUID
  owner_id : UUID
deriving DecidableEq, Repr

/-- Validating constructor for the persisted `Item`, enforcing its declared
constraints: `title` `max_length=255` (the line-121 redeclaration carries no
`min_length`), `description` `max_length=255` when present. -/
def Item.mk? (id : UUID) (title : String) (description : Option String)
    (owner_id : UUID) : Except ValidationError Item :=
  if 255 < title.length then .error ⟨"title", "max_length"⟩
  else match description with
  | some d =>
    if 255 < d.length then .error ⟨"description", "max_length"⟩
    else .ok ⟨title, description, id, owner_id⟩
  | none => .ok ⟨title, none, id, owner_id⟩

/-! ## Remaining table entities (models.py lines 138-264) -/

/-- `class Address(SQLModel, table=True)` (lines 138-146). -/
structure Address where
  id : UUID
  street : String
  city : String
  state : Option String := none
  postal_code : String
  country : String
  latitude : Option Rat := none
  longitude : Option Rat := none
deriving DecidableEq, Repr

/-- `class DeliveryCompany(SQLModel, table=True)` (lines 150-158). -/
structure DeliveryCompany where
  id : UUID
  name : String
  email : String
  phone_number : String
  headquarters_address_id : UUID
  created_at : DateTime
  updated_at : DateTime
deriving DecidableEq, Repr

/-- `class PackageItem(SQLModel, table=True)` (lines 162-169). -/
structure PackageItem where
  id : UUID
  order_id : UUID
  description : String
  weight : Rat
  dimensions : String
  quantity : Int
deriving DecidableEq, Repr

/-- `class Order(SQLModel, table=True)` (lines 173-186). -/
structure Order where
  id : UUID
  customer_name : String
  customer_email : String
  sender_address_id : UUID
  recipient_address_id : UUID
  status : OrderStatus
  total_weight : Option Rat := none
  total_price : Rat
  created_at : DateTime
  updated_at : DateTime
deriving DecidableEq, Repr

/-- Validating constructor for `Order` from raw input, enforcing the declared
constraints in field order: `customer_name` `max_length=255`,
`customer_email` `max_length=255`, `status` a declared `OrderStatus` value.
`created_at`/`updated_at` are stamped with the creating process's clock
value `now`. -/
def Order.mk? (id : UUID) (customer_name customer_email : String)
    (sender_address_id recipient_address_id : UUID) (status : String)
    (total_weight : Option Rat) (total_price : Rat) (now : DateTime) :
    Except ValidationError Order :=
  if 255 < customer_name.length then .error ⟨"customer_name", "max_length"⟩
  else if 255 < customer_email.length then .error ⟨"customer_email", "max_length"⟩
  else match OrderStatus.ofString status with
  | none => .error ⟨"status", "enum"⟩
  | some st =>
    .ok ⟨id, customer_name, customer_email, sender_address_id,
         recipient_address_id, st, total_weight, total_price, now, now⟩

/-- `class Vehicle(SQLModel, table=True)` (lines 190-198), with the declared
default `is_available = True`. -/
structure Vehicle where
  id : UUID
  type : VehicleType
  registration_number : String
  capacity : Rat
  current_location : Option String := none
  is_available : Bool := true
  created_at : DateTime
  updated_at : DateTime
deriving DecidableEq, Repr

/-- Validating constructor for `Vehicle` from raw input: `type` a declared
`VehicleType` value, `registration_number` `max_length=50`,
`current_location` `max_length=255` when present. -/
def Vehicle.mk? (id : UUID) (type : String) (registration_number : String)
    (capacity : Rat) (current_location : Option String) (is_available : Bool)
    (now : DateTime) : Except ValidationError Vehicle :=
  match VehicleType.ofString type with
  | none => .error ⟨"type", "enum"⟩
  | some ty =>
    if 50 < registration_number.length then
      .error ⟨"registration_number", "max_length"⟩
    else match current_location with
    | some loc =>
      if 255 < loc.length then .error ⟨"current_location", "max_length"⟩
      else .ok ⟨id, ty, registration_number, capacity, current_location,
                is_available, now, now⟩
    | none =>
      .ok ⟨id, ty, registration_number, capacity, none, is_available, now, now⟩

/-- `class Driver(SQLModel, table=True)` (lines 202-212), with the declared
defaults `assigned_vehicle_id = None`, `availability = True`,
`current_location = None`. -/
structure Driver where
  id : UUID
  name : String
  phone_number : String
  license_number : String
  assigned_vehicle_id : Option UUID := none
  availability : Bool := true
  current_location : Option String := none
  created_at : DateTime
  updated_at : DateTime
deriving DecidableEq, Repr

/-- `class Delivery(SQLModel, table=True)` (lines 216-232).  Note it declares
`started_at`/`delivered_at` but no `created_at`/`updated_at`. -/
structure Delivery where
  id : UUID
  order_id : UUID
  driver_id : Option UUID := none
  vehicle_id : Option UUID := none
  company_id : UUID
  pickup_address_id : UUID
  delivery_address_id : UUID
  status : DeliveryStatus
  started_at : Option DateTime := none
  delivered_at : Option DateTime := none
deriving DecidableEq, Repr

/-- Validating constructor for `Delivery` from raw input: the only declared
field constraint is that `status` is a declared `DeliveryStatus` value. -/
def Delivery.mk? (id order_id : UUID) (driver_id vehicle_id : Option UUID)
    (company_id pickup_address_id delivery_address_id : UUID)
    (status : String) (started_at delivered_at : Option DateTime) :
    Except ValidationError Delivery :=
  match DeliveryStatus.ofString status with
  | none => .error ⟨"status", "enum"⟩
  | some st =>
    .ok ⟨id, order_id, driver_id, vehicle_id, company_id, pickup_address_id,
         delivery_address_id, st, started_at, delivered_at⟩

/-- `class Payment(SQLModel, table=True)` (lines 236-243).  Note it declares
`created_at` but no `updated_at`. -/
structure Payment where
  id : UUID
  order_id : UUID
  amount : Rat
  payment_method : PaymentMethod
  payment_status : PaymentStatus
  created_at : DateTime
deriving DecidableEq, Repr

/-- Validating constructor for `Payment` from raw input: `payment_method`
and `payment_status` must be declared enum values. -/
def Payment.mk? (id order_id : UUID) (amount : Rat)
    (payment_method payment_status : String) (now : DateTime) :
    Except ValidationError Payment :=
  match PaymentMethod.ofString payment_method with
  | none => .error ⟨"payment_method", "enum"⟩
  | some pm =>
    match PaymentStatus.ofString payment_status with
    | none => .error ⟨"payment_status", "enum"⟩
    | some ps => .ok ⟨id, order_id, amount, pm, ps, now⟩

/-- `class Feedback(SQLModel, table=True)` (lines 247-253): `rating` declared
`ge=1, le=5`, optional `comment` with `max_length=1000`. -/
structure Feedback where
  id : UUID
  order_id : UUID
  rating : Int
  comment : Option String := none
  created_at : DateTime
deriving DecidableEq, Repr

/-- Validating constructor for `Feedback`: `rating` must satisfy
`1 ≤ rating ≤ 5`, `comment` `max_length=1000` when present. -/
def Feedback.mk? (id order_id : UUID) (rating : Int)
    (comment : Option String) (now : DateTime) :
    Except ValidationError Feedback :=
  if rating < 1 then .error ⟨"rating", "ge"⟩
  else if 5 < rating then .error ⟨"rating", "le"⟩
  else match comment with
  | some c =>
    if 1000 < c.length then .error ⟨"comment", "max_length"⟩
    else .ok ⟨id, order_id, rating, comment, now⟩
  | none => .ok ⟨id, order_id, rating, none, now⟩

/-- `class Promotion(SQLModel, table=True)` (lines 257-264):
`discount_percentage` declared `ge=0, le=100`, `code` `max_length=50`,
optional `applicable_countries` with `max_length=1000`. -/
structure Promotion where
  id : UUID
  code : String
  discount_percentage : Rat
  expiry_date : DateTime
  applicable_countries : Option String := none
  created_at : DateTime
  updated_at : DateTime
deriving DecidableEq, Repr

/-- Validating constructor for `Promotion`: `code` `max_length=50`,
`discount_percentage` must satisfy `0 ≤ d ≤ 100`, `applicable_countries`
`max_length=1000` when present. -/
def Promotion.mk? (id : UUID) (code : String) (discount_percentage : Rat)
    (expiry_date : DateTime) (applicable_countries : Option String)
    (now : DateTime) : Except ValidationError Promotion :=
  if 50 < code.length then .error ⟨"code", "max_length"⟩
  else if discount_percentage < 0 then .error ⟨"discount_percentage", "ge"⟩
  else if 100 < discount_percentage then .error ⟨"discount_percentage", "le"⟩
  else match applicable_countries with
  | some ac =>
    if 1000 < ac.length then .error ⟨"applicable_countries", "max_length"⟩
    else .ok ⟨id, code, discount_percentage, expiry_date,
              applicable_countries, now, now⟩
  | none =>
    .ok ⟨id, code, discount_percentage, expiry_date, none, now, now⟩

/-! ## Schema-level data: field name lists and relationship declarations -/

/-- Field names of the persisted `User` table model (inherited fields first,
as pydantic orders them). -/
def User.fieldNames : List String :=
  ["email", "is_active", "is_superuser", "full_name", "id", "hashed_password"]

/-- Field names of the persisted `Item` table model (the `title` override
keeps its inherited position). -/
def Item.fieldNames : List String :=
  ["title", "description", "id", "owner_id"]

/-- Field names of the `Address` table model. -/
def Address.fieldNames : List String :=
  ["id", "street", "city", "state", "postal_code", "country",
   "latitude", "longitude"]

/-- Field names of the `DeliveryCompany` table model. -/
def DeliveryCompany.fieldNames : List String :=
  ["id", "name", "email", "phone_number", "headquarters_address_id",
   "created_at", "updated_at"]

/-- Field names of the `PackageItem` table model. -/
def PackageItem.fieldNames : List String :=
  ["id", "order_id", "description", "weight", "dimensions", "quantity"]

/-- Field names of the `Order` table model. -/
def Order.fieldNames : List String :=
  ["id", "customer_name", "customer_email", "sender_address_id",
   "recipient_address_id", "status", "total_weight", "total_price",
   "created_at", "updated_at"]

/-- Field names of the `Vehicle` table model. -/
def Vehicle.fieldNames : List String :=
  ["id", "type", "registration_number", "capacity", "current_location",
   "is_available", "created_at", "updated_at"]

/-- Field names of the `Driver` table model. -/
def Driver.fieldNames : List String :=
  ["id", "name", "phone_number", "license_number", "assigned_vehicle_id",
   "availability", "current_location", "created_at", "updated_at"]

/-- Field names of the `Delivery` table model: it declares
`started_at`/`delivered_at` and no `created_at`/`updated_at`. -/
def Delivery.fieldNames : List String :=
  ["id", "order_id", "driver_id", "vehicle_id", "company_id",
   "pickup_address_id", "delivery_address_id", "status",
   "started_at", "delivered_at"]

/-- Field names of the `Payment` table model: `created_at` only. -/
def Payment.fieldNames : List String :=
  ["id", "order_id", "amount", "payment_method", "payment_status",
   "created_at"]

/-- Field names of the `Feedback` table model: `created_at` only. -/
def Feedback.fieldNames : List String :=
  ["id", "order_id", "rating", "comment", "created_at"]

/-- Field names of the `Promotion` table model. -/
def Promotion.fieldNames : List String :=
  ["id", "code", "discount_percentage", "expiry_date",
   "applicable_countries", "created_at", "updated_at"]

/-- All `table=True` entities of the schema with their field names, in
declaration order. -/
def tableEntities : List (String × List String) :=
  [("User", User.fieldNames),
   ("Item", Item.fieldNames),
   ("Address", Address.fieldNames),
   ("DeliveryCompany", DeliveryCompany.fieldNames),
   ("PackageItem", PackageItem.fieldNames),
   ("Order", Order.fieldNames),
   ("Vehicle", Vehicle.fieldNames),
   ("Driver", Driver.fieldNames),
   ("Delivery", Delivery.fieldNames),
   ("Payment", Payment.fieldNames),
   ("Feedback", Feedback.fieldNames),
   ("Promotion", Promotion.fieldNames)]

/-- The entities whose `updated_at` field declares the
`sa_column_kwargs={"onupdate": datetime.utcnow}` re-stamp hook: exactly the
entities that have an `updated_at` field at all. -/
def entitiesWithOnUpdate : List String :=
  ["DeliveryCompany", "Order", "Vehicle", "Driver", "Promotion"]

/-- A `Relationship(...)` declaration of the schema: the declaring entity,
the navigation field, the target entity, and whether
`sa_relationship_kwargs={"cascade": "delete"}` is declared on it. -/
structure SchemaRel where
  entity : String
  field : String
  target : String
  cascadeDelete : Bool
deriving DecidableEq, Repr

/-- Every `Relationship(...)` declaration in models.py, in declaration
order, with its cascade directive. -/
def schemaRelationships : List SchemaRel :=
  [⟨"User", "items", "Item", true⟩,
   ⟨"Item", "owner", "User", false⟩,
   ⟨"DeliveryCompany", "headquarters_address", "Address", false⟩,
   ⟨"PackageItem", "order", "Order", true⟩,
   ⟨"Order", "sender_address", "Address", false⟩,
   ⟨"Order", "recipient_address", "Address", false⟩,
   ⟨"Order", "package_items", "PackageItem", true⟩,
   ⟨"Driver", "assigned_vehicle", "Vehicle", false⟩,
   ⟨"Delivery", "order", "Order", false⟩,
   ⟨"Delivery", "driver", "Driver", false⟩,
   ⟨"Delivery", "vehicle", "Vehicle", false⟩,
   ⟨"Delivery", "company", "DeliveryCompany", false⟩,
   ⟨"Delivery", "pickup_address", "Address", false⟩,
   ⟨"Delivery", "delivery_address", "Address", false⟩,
   ⟨"Payment", "order", "Order", false⟩,
   ⟨"Feedback", "order", "Order", false⟩]

/-! ## Helper lemmas: enum string characterizations -/

/-- `OrderStatus.ofString` accepts exactly the declared value set. -/
theorem orderStatus_ofString_isSome_iff (s : String) :
    (OrderStatus.ofString s).isSome = true ↔ s ∈ orderStatusStrings := by
  unfold OrderStatus.ofString
  split_ifs with h1 h2 h3 h4 h5 <;> simp_all [orderStatusStrings]

/-- `OrderStatus.ofString` rejects exactly the strings outside the set. -/
theorem orderStatus_ofString_eq_none_iff (s : String) :
    OrderStatus.ofString s = none ↔ s ∉ orderStatusStrings := by
  rw [← orderStatus_ofString_isSome_iff]
  cases OrderStatus.ofString s <;> simp

/-- `DeliveryStatus.ofString` accepts exactly the declared value set. -/
theorem deliveryStatus_ofString_isSome_iff (s : String) :
    (DeliveryStatus.ofString s).isSome = true ↔ s ∈ deliveryStatusStrings := by
  unfold DeliveryStatus.ofString
  split_ifs with h1 h2 h3 h4 <;> simp_all [deliveryStatusStrings]

/-- `PaymentStatus.ofString` accepts exactly the declared value set. -/
theorem paymentStatus_ofString_isSome_iff (s : String) :
    (PaymentStatus.ofString s).isSome = true ↔ s ∈ paymentStatusStrings := by
  unfold PaymentStatus.ofString
  split_ifs with h1 h2 h3 <;> simp_all [paymentStatusStrings]

/-- `PaymentMethod.ofString` accepts exactly the declared value set. -/
theorem paymentMethod_ofString_isSome_iff (s : String) :
    (PaymentMethod.ofString s).isSome = true ↔ s ∈ paymentMethodStrings := by
  unfold PaymentMethod.ofString
  split_ifs with h1 h2 h3 h4 <;> simp_all [paymentMethodStrings]

/-- `VehicleType.ofString` accepts exactly the declared value set. -/
theorem vehicleType_ofString_isSome_iff (s : String) :
    (VehicleType.ofString s).isSome = true ↔ s ∈ vehicleTypeStrings := by
  unfold VehicleType.ofString
  split_ifs with h1 h2 h3 h4 h5 <;> simp_all [vehicleTypeStrings]

/-! ## Claim C1 -/

/-- C1 counterexample: the claim states that constructing the persisted
`Item` entity with an empty-string title fails with `ValidationError`; but
line 121 redeclares `title: str = Field(max_length=255)` on `Item`,
replacing the inherited `min_length=1`, so the persisted model's declared
constraints accept the empty title. -/
theorem item_empty_title_accepted :
    vOk (Item.mk? "item-1" "" none "user-1") = true := by decide

/-- C1 amended: for `ItemCreate` (which inherits `ItemBase` unchanged), a
title succeeds exactly when its length is 1 through 255 — empty or over-255
titles fail; for the persisted `Item`, whose line-121 redeclaration of
`title` carries only `max_length=255`, a title succeeds exactly when its
length is at most 255, the empty title included. -/
theorem item_title_length_bounds :
    (∀ t : String,
      vOk (ItemCreate.mk? t none) = true ↔ 1 ≤ t.length ∧ t.length ≤ 255) ∧
    (∀ (t : String) (id oid : UUID),
      vOk (Item.mk? id t none oid) = true ↔ t.length ≤ 255) := by
  constructor
  · intro t
    unfold ItemCreate.mk? ItemBase.mk?
    split_ifs with h1 h2 <;> simp [vOk] <;> omega
  · intro t id oid
    unfold Item.mk?
    split_ifs with h1 <;> simp [vOk] <;> omega

/-! ## Claim C2 -/

/-- C2 counterexample: the claim states that exactly two relationships
declare a cascade delete and that no other relationship does; but the
`PackageItem.order` relationship (line 165) also declares
`sa_relationship_kwargs={"cascade": "delete"}`, so three declarations
carry it. -/
theorem packageitem_order_declares_cascade :
    (⟨"PackageItem", "order", "Order", true⟩ : SchemaRel) ∈ schemaRelationships ∧
    (schemaRelationships.filter (fun r => r.cascadeDelete)).length = 3 := by
  decide

/-- C2 amended: exactly three relationship declarations in the schema carry
the cascade-delete directive — `User.items` (deleting a User deletes its
owned Items), `PackageItem.order` (declared on the child-to-parent side,
line 165), and `Order.package_items` (deleting an Order deletes its
PackageItems) — and every other relationship declares no cascade. -/
theorem cascade_relationships_exact :
    (schemaRelationships.filter (fun r => r.cascadeDelete)).map
        (fun r => (r.entity, r.field, r.target)) =
      [("User", "items", "Item"), ("PackageItem", "order", "Order"),
       ("Order", "package_items", "PackageItem")] := by
  decide

/-! ## Claim C3 -/

/-- C3 counterexample: the claim states every persisted entity carries
`created_at` and `updated_at`; but the `Delivery` table model declares
neither, and the `Payment` table model declares no `updated_at`. -/
theorem delivery_payment_missing_timestamps :
    "created_at" ∉ Delivery.fieldNames ∧
    "updated_at" ∉ Delivery.fieldNames ∧
    "updated_at" ∉ Payment.fieldNames := by
  decide

/-- C3 amended: among the twelve table entities, exactly DeliveryCompany,
Order, Vehicle, Driver and Promotion carry both `created_at` and
`updated_at` (their `updated_at` declaring the `onupdate` re-stamp hook);
Payment and Feedback carry `created_at` only; and User, Item, Address,
PackageItem and Delivery carry neither timestamp field. -/
theorem timestamp_fields_exact :
    ((tableEntities.filter
        (fun e => e.2.contains "created_at" && e.2.contains "updated_at")).map
        Prod.fst =
      ["DeliveryCompany", "Order", "Vehicle", "Driver", "Promotion"]) ∧
    ((tableEntities.filter
        (fun e => e.2.contains "created_at" && !(e.2.contains "updated_at"))).map
        Prod.fst =
      ["Payment", "Feedback"]) ∧
    ((tableEntities.filter (fun e => !(e.2.contains "created_at"))).map
        Prod.fst =
      ["User", "Item", "Address", "PackageItem", "Delivery"]) ∧
    entitiesWithOnUpdate =
      ["DeliveryCompany", "Order", "Vehicle", "Driver", "Promotion"] := by
  decide

/-! ## Claim C4 -/

/-- C4: the `UserPublic` shape carries no hashed-password field, and any two
persisted `User` records agreeing on all `UserBase` fields and `id` but
differing in `hashed_password` project to equal `UserPublic` values. -/
theorem userpublic_excludes_hashed_password :
    "hashed_password" ∉ UserPublic.fieldNames ∧
    ∀ u1 u2 : User, u1.email = u2.email → u1.is_active = u2.is_active →
      u1.is_superuser = u2.is_superuser → u1.full_name = u2.full_name →
      u1.id = u2.id → u1.hashed_password ≠ u2.hashed_password →
      u1.toPublic = u2.toPublic := by
  refine ⟨by decide, ?_⟩
  intro u1 u2 he ha hs hf hi _
  simp [User.toPublic, he, ha, hs, hf, hi]

/-- C4 witness: two concrete users differing only in `hashed_password` have
equal public projections. -/
theorem userpublic_excludes_hashed_password_witness :
    User.toPublic ⟨"a@b.example", true, false, none, "user-1", "hashA"⟩ =
      User.toPublic ⟨"a@b.example", true, false, none, "user-1", "hashB"⟩ := by
  exact userpublic_excludes_hashed_password.2 _ _ rfl rfl rfl rfl rfl
    (by decide)

/-! ## Claim C5 -/

/-- C5: the five enum value sets are exactly as declared, string coercion
for each accepts exactly its declared set, and constructing an Order,
Delivery, Payment or Vehicle from a raw enum string outside the declared
set fails (with otherwise valid fields, construction succeeds exactly when
every raw enum string is in its declared set). -/
theorem enum_fields_closed_sets :
    (orderStatusStrings =
        ["pending", "confirmed", "in_transit", "delivered", "cancelled"] ∧
      deliveryStatusStrings =
        ["assigned", "in_transit", "delivered", "cancelled"] ∧
      paymentStatusStrings = ["pending", "successful", "failed"] ∧
      paymentMethodStrings =
        ["credit_card", "paypal", "crypto", "bank_transfer"] ∧
      vehicleTypeStrings = ["bike", "car", "truck", "airplane", "ship"]) ∧
    (∀ s, (OrderStatus.ofString s).isSome = true ↔ s ∈ orderStatusStrings) ∧
    (∀ s, (DeliveryStatus.ofString s).isSome = true ↔
      s ∈ deliveryStatusStrings) ∧
    (∀ s, (PaymentStatus.ofString s).isSome = true ↔
      s ∈ paymentStatusStrings) ∧
    (∀ s, (PaymentMethod.ofString s).isSome = true ↔
      s ∈ paymentMethodStrings) ∧
    (∀ s, (VehicleType.ofString s).isSome = true ↔ s ∈ vehicleTypeStrings) ∧
    (∀ (i sa ra : UUID) (s : String) (w : Option Rat) (p : Rat)
        (n : DateTime),
      vOk (Order.mk? i "Alice" "alice@example.com" sa ra s w p n) = true ↔
        s ∈ orderStatusStrings) ∧
    (∀ (i oid : UUID) (di vi : Option UUID) (ci pa da : UUID) (s : String)
        (st dt : Option DateTime),
      vOk (Delivery.mk? i oid di vi ci pa da s st dt) = true ↔
        s ∈ deliveryStatusStrings) ∧
    (∀ (i oid : UUID) (a : Rat) (m st : String) (n : DateTime),
      vOk (Payment.mk? i oid a m st n) = true ↔
        m ∈ paymentMethodStrings ∧ st ∈ paymentStatusStrings) ∧
    (∀ (i : UUID) (ty : String) (c : Rat) (av : Bool) (n : DateTime),
      vOk (Vehicle.mk? i ty "REG-1" c none av n) = true ↔
        ty ∈ vehicleTypeStrings) := by
  refine ⟨⟨rfl, rfl, rfl, rfl, rfl⟩, orderStatus_ofString_isSome_iff,
    deliveryStatus_ofString_isSome_iff, paymentStatus_ofString_isSome_iff,
    paymentMethod_ofString_isSome_iff, vehicleType_ofString_isSome_iff,
    ?_, ?_, ?_, ?_⟩
  · intro i sa ra s w p n
    unfold Order.mk?
    rw [if_neg (by decide), if_neg (by decide)]
    have hm := orderStatus_ofString_isSome_iff s
    rcases h : OrderStatus.ofString s with _ | st <;> rw [h] at hm <;>
      simp_all [vOk]
  · intro i oid di vi ci pa da s st dt
    unfold Delivery.mk?
    have hm := deliveryStatus_ofString_isSome_iff s
    rcases h : DeliveryStatus.ofString s with _ | v <;> rw [h] at hm <;>
      simp_all [vOk]
  · intro i oid a m st n
    unfold Payment.mk?
    have hm := paymentMethod_ofString_isSome_iff m
    have hs := paymentStatus_ofString_isSome_iff st
    rcases h1 : PaymentMethod.ofString m with _ | pm <;> rw [h1] at hm <;>
      rcases h2 : PaymentStatus.ofString st with _ | ps <;> rw [h2] at hs <;>
        simp_all [vOk]
  · intro i ty c av n
    unfold Vehicle.mk?
    have hm := vehicleType_ofString_isSome_iff ty
    rcases h : VehicleType.ofString ty with _ | v
    · rw [h] at hm
      simp_all [vOk]
    · rw [h] at hm
      simp_all [vOk]
      rw [if_neg (by decide)]

/-! ## Claim C6 -/

/-- C6: constructing a `Feedback` succeeds exactly when the rating lies in
the inclusive range 1 through 5 — ratings below 1 or above 5 fail with a
`ValidationError` on `rating`, and 1 and 5 themselves (and every integer
between) succeed. -/
theorem feedback_rating_bounds :
    ∀ (i o : UUID) (r : Int) (n : DateTime),
      vOk (Feedback.mk? i o r none n) = true ↔ 1 ≤ r ∧ r ≤ 5 := by
  intro i o r n
  unfold Feedback.mk?
  split_ifs with h1 h2 <;> simp [vOk] <;> omega

/-! ## Claim C7 -/

/-- C7: constructing a `Promotion` succeeds exactly when
`discount_percentage` lies in the inclusive range 0 through 100 — in
particular -1 and 101 fail and the boundary values 0 and 100 succeed. -/
theorem promotion_discount_bounds :
    ∀ (i : UUID) (d : Rat) (e n : DateTime),
      vOk (Promotion.mk? i "SUMMER" d e none n) = true ↔ 0 ≤ d ∧ d ≤ 100 := by
  intro i d e n
  unfold Promotion.mk?
  rw [if_neg (by decide)]
  split_ifs with h1 h2
  · constructor
    · intro hc; simp [vOk] at hc
    · intro hc; linarith [hc.1]
  · constructor
    · intro hc; simp [vOk] at hc
    · intro hc; linarith [hc.2]
  · constructor
    · intro _; exact ⟨not_lt.mp h1, not_lt.mp h2⟩
    · intro _; rfl

/-! ## Claim C8 -/

/-- C8: an `ItemUpdate` built from the empty partial object (no fields
supplied) succeeds, yielding the record with both fields absent, while any
`ItemUpdate` whose supplied title is the empty string fails (the override
keeps `min_length=1`). -/
theorem itemupdate_empty_partial_and_empty_title :
    ItemUpdate.mk? none none = Except.ok ⟨none, none⟩ ∧
    ∀ d : Option String, vOk (ItemUpdate.mk? (some "") d) = false := by
  refine ⟨rfl, ?_⟩
  intro d
  rfl

/-! ## Claim C9 -/

/-- C9: `UserCreate` construction takes `password` as a required field, and
with a valid email (and no full name) it succeeds exactly when the password
length lies in the inclusive range 8 through 40. -/
theorem usercreate_password_bounds :
    ∀ (e : String) (a su : Bool) (pw : String),
      e.length ≤ 255 →
      (vOk (UserCreate.mk? e a su none pw) = true ↔
        8 ≤ pw.length ∧ pw.length ≤ 40) := by
  intro e a su pw he
  unfold UserCreate.mk?
  rw [if_neg (by omega)]
  split_ifs with h1 h2 <;> simp [vOk] <;> omega

/-- C9 witness: a 17-character email and a 15-character password satisfy
the hypotheses, and construction succeeds. -/
theorem usercreate_password_bounds_witness :
    ("alice@example.com" : String).length ≤ 255 ∧
    vOk (UserCreate.mk? "alice@example.com" true false none
      "secret-passphrase") = true := by
  refine ⟨by decide, ?_⟩
  exact (usercreate_password_bounds "alice@example.com" true false
    "secret-passphrase" (by decide)).mpr (by decide)

/-! ## Claim C10 -/

/-- C10: the declared construction defaults — a `UserBase` or `User` built
without its flags has `is_active = true` and `is_superuser = false`; a
`Vehicle` built without `is_available` has it `true`; a `Driver` built
without `availability` has it `true`. -/
theorem construction_defaults :
    (∀ e : String, ({ email := e } : UserBase).is_active = true ∧
      ({ email := e } : UserBase).is_superuser = false) ∧
    (∀ (e : String) (i : UUID) (hp : String),
      ({ email := e, id := i, hashed_password := hp } : User).is_active
          = true ∧
        ({ email := e, id := i, hashed_password := hp } : User).is_superuser
          = false) ∧
    (∀ (i : UUID) (t : VehicleType) (r : String) (c : Rat)
        (ca ua : DateTime),
      ({ id := i, type := t, registration_number := r, capacity := c,
         created_at := ca, updated_at := ua } : Vehicle).is_available
        = true) ∧
    (∀ (i : UUID) (nm ph li : String) (ca ua : DateTime),
      ({ id := i, name := nm, phone_number := ph, license_number := li,
         created_at := ca, updated_at := ua } : Driver).availability
        = true) := by
  exact ⟨fun e => ⟨rfl, rfl⟩, fun e i hp => ⟨rfl, rfl⟩,
    fun i t r c ca ua => rfl, fun i nm ph li ca ua => rfl⟩
